import Mathlib

/-!
Shallow embedding of `src/backend/routers/announcements.py`: the announcement
CRUD endpoints of the High School Management System API.

Modelling conventions:
* The two Mongo collections (`teachers_collection`, `announcements_collection`)
  are the two components of a `DB` value; every handler takes the `DB` and
  returns the (possibly updated) `DB` alongside its HTTP result.
* The teacher collection is consulted only through
  `teachers_collection.find_one({"_id": username})`, and only for truthiness,
  so it is modelled by the list of teacher usernames.
* `bson.ObjectId` values are modelled by their canonical (lowercase) 24-digit
  hex string; `ObjectId(s)` parsing succeeds exactly on 24-character hex
  strings (a Python `str` can never be a 12-byte input) and `str(oid)` is the
  lowercase form.
* `datetime.now()` values (the current date for the active filter, the
  `created_at` stamp) and the `_id` generated by `insert_one` are inputs of
  the model, since they come from the environment.
* Python string comparison (used by the Mongo `$gte` query on
  `expiration_date` and by the handler's own `<=` on `start_date`) is
  code-point lexicographic; `strLe` implements it structurally.
* A `raise HTTPException(...)` that escapes the handler is an `Except.error`.
  Inside the `try:` blocks of `update_announcement` / `delete_announcement`,
  every raised exception — including the `HTTPException(404)` raised there,
  since `fastapi.HTTPException` is a subclass of `Exception` — is caught by
  `except Exception as e` and replaced by
  `HTTPException(400, "Invalid announcement ID: " + str(e))`.
  Starlette renders `str(e)` of an `HTTPException` as
  `"{status_code}: {detail}"`, modelled by `HTTPException.str`.
-/

deriving instance DecidableEq for Except

namespace Announcements

/-- Python code-point lexicographic `<=` on strings, as lists of characters. -/
def pyLe : List Char → List Char → Bool
  | [], _ => true
  | _ :: _, [] => false
  | a :: as, b :: bs =>
    if a.toNat < b.toNat then true
    else if b.toNat < a.toNat then false
    else pyLe as bs

/-- Python `s <= t` on strings (also the semantics of Mongo `$gte`/`$lte`
on string-valued fields, restricted to string values). -/
def strLe (s t : String) : Bool := pyLe s.data t.data

/-- Hex digits, the characters accepted by `bytes.fromhex` inside
`bson.ObjectId.__init__` for a 24-character string. -/
def isHexChar (c : Char) : Bool :=
  ('0'.toNat ≤ c.toNat && c.toNat ≤ '9'.toNat) ||
  ('a'.toNat ≤ c.toNat && c.toNat ≤ 'f'.toNat) ||
  ('A'.toNat ≤ c.toNat && c.toNat ≤ 'F'.toNat)

/-- A `bson.ObjectId`, identified with its canonical lowercase hex string
(`str(oid)`). -/
structure ObjectId where
  hex : String
deriving DecidableEq, Repr

/-- `bson.ObjectId(s)` for a Python `str` argument: succeeds exactly when `s`
is a 24-character hex string, and the resulting id stringifies to the
lowercased hex; otherwise `bson.errors.InvalidId` is raised. -/
def ObjectId.parse (s : String) : Option ObjectId :=
  if s.length = 24 && s.data.all isHexChar then
    some ⟨String.mk (s.data.map Char.toLower)⟩
  else
    none

/-- `str` of the `bson.errors.InvalidId` raised by `ObjectId(s)` on a bad
string. -/
def invalidIdMsg (s : String) : String :=
  "'" ++ s ++ "' is not a valid ObjectId, it must be a 12-byte input or a 24-character hex string"

/-- `fastapi.HTTPException` (status code and detail). -/
structure HTTPException where
  status_code : Nat
  detail : String
deriving DecidableEq, Repr

/-- `str(e)` of a Starlette/FastAPI `HTTPException`: `"{status_code}: {detail}"`. -/
def HTTPException.str (e : HTTPException) : String :=
  toString e.status_code ++ ": " ++ e.detail

/-- A stored announcement document.  `oid` models the Mongo `_id` field
(store-native `ObjectId`).  `create_announcement` always stores all six keys,
with `start_date` possibly `None` (modelled by `none`). -/
structure AnnDoc where
  oid : ObjectId
  message : String
  start_date : Option String
  expiration_date : String
  created_by : String
  created_at : String
deriving DecidableEq, Repr

/-- An announcement document as returned to the client: identical to the
stored document except that `_id` has been replaced by its string form
(`announcement["_id"] = str(announcement["_id"])`). -/
structure AnnJson where
  oid : String
  message : String
  start_date : Option String
  expiration_date : String
  created_by : String
  created_at : String
deriving DecidableEq, Repr

/-- Stringify the `_id` of a document for the JSON response. -/
def render (d : AnnDoc) : AnnJson :=
  ⟨d.oid.hex, d.message, d.start_date, d.expiration_date, d.created_by, d.created_at⟩

/-- The two collections imported from `..database`. -/
structure DB where
  teachers : List String
  announcements : List AnnDoc
deriving DecidableEq, Repr

/-- `teachers_collection.find_one({"_id": username})`, used only for its
truthiness ("is this username a known teacher?"). -/
def teacherExists (db : DB) (u : String) : Bool := db.teachers.contains u

/-- Request body of `POST /announcements/` (`AnnouncementCreate`). -/
structure AnnouncementCreate where
  message : String
  start_date : Option String
  expiration_date : String
  created_by : String
deriving DecidableEq, Repr

/-- Request body of `PUT /announcements/{id}` (`AnnouncementUpdate`); all
fields optional, `None` meaning "not provided". -/
structure AnnouncementUpdate where
  message : Option String
  start_date : Option String
  expiration_date : Option String
deriving DecidableEq, Repr

/-- `$set` of the non-null fields of the patch on one document, i.e. the
effect of `update_doc` built field-by-field from the non-`None` patch
entries. -/
def applySet (u : AnnouncementUpdate) (d : AnnDoc) : AnnDoc :=
  { d with
    message := u.message.getD d.message,
    start_date := match u.start_date with
      | some s => some s
      | none => d.start_date,
    expiration_date := u.expiration_date.getD d.expiration_date }

/-- `update_one({"_id": oid}, {"$set": ...})`: applies the patch to the first
matching document (Mongo updates at most one). -/
def updateFirst (oid : ObjectId) (u : AnnouncementUpdate) : List AnnDoc → List AnnDoc
  | [] => []
  | d :: ds => if d.oid = oid then applySet u d :: ds else d :: updateFirst oid u ds

/-- `matched_count` of `update_one` with filter `{"_id": oid}`: 1 when some
document has that id, else 0. -/
def matchedCount (oid : ObjectId) (l : List AnnDoc) : Nat :=
  if l.any (fun d => d.oid == oid) then 1 else 0

/-- `delete_one({"_id": oid})`: removes the first matching document. -/
def deleteFirst (oid : ObjectId) : List AnnDoc → List AnnDoc :=
  List.eraseP (fun d => d.oid == oid)

/-- `deleted_count` of `delete_one({"_id": oid})`. -/
def deletedCount (oid : ObjectId) (l : List AnnDoc) : Nat :=
  if l.any (fun d => d.oid == oid) then 1 else 0

/-- The Mongo sort key `("created_at", -1)` as a relation: `x` comes before
`y` when `y.created_at <= x.created_at` (descending). -/
def createdDesc (x y : AnnDoc) : Prop := strLe y.created_at x.created_at = true

instance : DecidableRel createdDesc :=
  fun _ _ => inferInstanceAs (Decidable (_ = true))

/-- `GET /announcements/active` (`get_active_announcements`): the Mongo query
keeps documents with `expiration_date >= current_date`, then the Python loop
keeps a document when `announcement.get("start_date")` is falsy (absent key,
`None` or `""`) or `start_date <= current_date`.  `current_date` is
`datetime.now().strftime("%Y-%m-%d")`. -/
def get_active_announcements (db : DB) (current_date : String) :
    List AnnJson × DB :=
  let announcements := db.announcements.filter
    (fun a => strLe current_date a.expiration_date)
  let active_announcements := announcements.filter (fun a =>
    match a.start_date with
    | some s => if s ≠ "" then strLe s current_date else true
    | none => true)
  (active_announcements.map render, db)

/-- `GET /announcements/all` (`get_all_announcements`): 401 when the username
is not a known teacher, otherwise every announcement sorted by `created_at`
descending, ids stringified.  Mongo's sort is modelled by insertion sort on
`createdDesc`. -/
def get_all_announcements (db : DB) (username : String) :
    Except HTTPException (List AnnJson) × DB :=
  if teacherExists db username = false then
    (.error ⟨401, "Unauthorized"⟩, db)
  else
    (.ok ((List.insertionSort createdDesc db.announcements).map render), db)

/-- `POST /announcements/` (`create_announcement`): 401 when `created_by` is
not a known teacher, otherwise the document (with `created_at := now`, the
`datetime.now().isoformat()` stamp) is inserted and returned with the
generated `_id` (the store-chosen `newId`) stringified. -/
def create_announcement (db : DB) (announcement : AnnouncementCreate)
    (now : String) (newId : ObjectId) : Except HTTPException AnnJson × DB :=
  if teacherExists db announcement.created_by = false then
    (.error ⟨401, "Unauthorized"⟩, db)
  else
    let announcement_doc : AnnDoc :=
      { oid := newId
        message := announcement.message
        start_date := announcement.start_date
        expiration_date := announcement.expiration_date
        created_by := announcement.created_by
        created_at := now }
    (.ok (render announcement_doc),
      { db with announcements := db.announcements ++ [announcement_doc] })

/-- `PUT /announcements/{announcement_id}` (`update_announcement`).
Order of checks, as in the source: authorization, then the empty-patch check,
then the `try:` block.  Inside the `try:` block every raised exception is
caught by `except Exception as e` and turned into
`HTTPException(400, "Invalid announcement ID: " + str(e))`; this includes the
`HTTPException(404, "Announcement not found")` raised when `matched_count`
is 0, because `fastapi.HTTPException` is a subclass of `Exception`. -/
def update_announcement (db : DB) (announcement_id : String)
    (announcement : AnnouncementUpdate) (username : String) :
    Except HTTPException AnnJson × DB :=
  if teacherExists db username = false then
    (.error ⟨401, "Unauthorized"⟩, db)
  else if announcement.message = none ∧ announcement.start_date = none ∧
      announcement.expiration_date = none then
    (.error ⟨400, "No fields to update"⟩, db)
  else
    match ObjectId.parse announcement_id with
    | none =>
      (.error ⟨400, "Invalid announcement ID: " ++ invalidIdMsg announcement_id⟩, db)
    | some oid =>
      if matchedCount oid db.announcements = 0 then
        (.error ⟨400, "Invalid announcement ID: " ++
          HTTPException.str ⟨404, "Announcement not found"⟩⟩, db)
      else
        match (updateFirst oid announcement db.announcements).find?
            (fun d => d.oid == oid) with
        | some d =>
          (.ok (render d),
            { db with announcements := updateFirst oid announcement db.announcements })
        | none =>
          -- unreachable: a matched document is still found after `$set`;
          -- in Python this would be `None["_id"]`, a TypeError caught below
          (.error ⟨400, "Invalid announcement ID: 'NoneType' object is not subscriptable"⟩, db)

/-- `DELETE /announcements/{announcement_id}` (`delete_announcement`).
Same `try:`/`except Exception` structure as `update_announcement`: the
`HTTPException(404)` raised when `deleted_count` is 0 is caught and replaced
by a 400. -/
def delete_announcement (db : DB) (announcement_id : String)
    (username : String) : Except HTTPException String × DB :=
  if teacherExists db username = false then
    (.error ⟨401, "Unauthorized"⟩, db)
  else
    match ObjectId.parse announcement_id with
    | none =>
      (.error ⟨400, "Invalid announcement ID: " ++ invalidIdMsg announcement_id⟩, db)
    | some oid =>
      if deletedCount oid db.announcements = 0 then
        (.error ⟨400, "Invalid announcement ID: " ++
          HTTPException.str ⟨404, "Announcement not found"⟩⟩, db)
      else
        (.ok "Announcement deleted successfully",
          { db with announcements := deleteFirst oid db.announcements })

end Announcements

namespace Announcements

/-! ### Order facts about the code-point comparison -/

theorem pyLe_total : ∀ (a b : List Char), pyLe a b = true ∨ pyLe b a = true
  | [], _ => Or.inl rfl
  | _ :: _, [] => Or.inr rfl
  | a :: as, b :: bs => by
    simp only [pyLe]
    rcases Nat.lt_trichotomy a.toNat b.toNat with h | h | h
    · left; rw [if_pos h]
    · have h2 : ¬ a.toNat < b.toNat := by omega
      have h3 : ¬ b.toNat < a.toNat := by omega
      simp only [if_neg h2, if_neg h3]
      exact pyLe_total as bs
    · right; rw [if_pos h]

theorem pyLe_trans : ∀ (a b c : List Char),
    pyLe a b = true → pyLe b c = true → pyLe a c = true
  | [], _, _, _, _ => rfl
  | _ :: _, [], _, hab, _ => by simp [pyLe] at hab
  | _ :: _, _ :: _, [], _, hbc => by simp [pyLe] at hbc
  | a :: as, b :: bs, c :: cs, hab, hbc => by
    simp only [pyLe] at hab hbc ⊢
    split_ifs at hab hbc ⊢ <;>
      first
      | rfl
      | omega
      | exact absurd hab Bool.false_ne_true
      | exact absurd hbc Bool.false_ne_true
      | exact pyLe_trans as bs cs hab hbc

instance : IsTotal AnnDoc createdDesc :=
  ⟨fun x y => (pyLe_total y.created_at.data x.created_at.data).imp id id⟩

instance : IsTrans AnnDoc createdDesc :=
  ⟨fun _ _ _ hxy hyz => pyLe_trans _ _ _ hyz hxy⟩

end Announcements

namespace Announcements

/-! ### Helper lemmas about the store operations -/

theorem applySet_oid (u : AnnouncementUpdate) (d : AnnDoc) :
    (applySet u d).oid = d.oid := rfl

/-- `update_one` leaves every document either untouched or replaced by its
`$set` image, and touches only documents whose id matches. -/
theorem updateFirst_frame (oid : ObjectId) (u : AnnouncementUpdate) :
    ∀ l : List AnnDoc,
      List.Forall₂ (fun d d' => (d.oid ≠ oid → d' = d) ∧ (d' = d ∨ d' = applySet u d))
        l (updateFirst oid u l)
  | [] => List.Forall₂.nil
  | d :: ds => by
    simp only [updateFirst]
    by_cases h : d.oid = oid
    · rw [if_pos h]
      refine List.Forall₂.cons ⟨fun hn => absurd h hn, Or.inr rfl⟩ ?_
      exact (List.forall₂_same).mpr (fun a _ => ⟨fun _ => rfl, Or.inl rfl⟩)
    · rw [if_neg h]
      exact List.Forall₂.cons ⟨fun _ => rfl, Or.inl rfl⟩ (updateFirst_frame oid u ds)

/-- Reading back the updated document: the first document matching the id
after `update_one` is the `$set` image of the first one matching before. -/
theorem find_updateFirst (oid : ObjectId) (u : AnnouncementUpdate) :
    ∀ l : List AnnDoc,
      (updateFirst oid u l).find? (fun d => d.oid == oid) =
        (l.find? (fun d => d.oid == oid)).map (fun d => applySet u d)
  | [] => rfl
  | d :: ds => by
    by_cases h : d.oid = oid
    · have hb : (d.oid == oid) = true := by simp [h]
      have hb' : ((applySet u d).oid == oid) = true := by simp [applySet_oid, h]
      simp [updateFirst, if_pos h, List.find?, hb, hb']
    · have hb : (d.oid == oid) = false := by simp [h]
      simp [updateFirst, if_neg h, List.find?, hb]
      exact find_updateFirst oid u ds

/-- A nonzero `matched_count` produces a first matching document. -/
theorem find_of_matched (oid : ObjectId) (l : List AnnDoc)
    (h : matchedCount oid l ≠ 0) :
    ∃ d, l.find? (fun d => d.oid == oid) = some d ∧ d ∈ l ∧ d.oid = oid := by
  unfold matchedCount at h
  have ha : l.any (fun d => d.oid == oid) = true := by
    by_contra hc
    rw [if_neg (by simpa using hc)] at h
    exact h rfl
  have hsome : (l.find? (fun d => d.oid == oid)).isSome := by
    rw [List.find?_isSome]
    simpa using List.any_eq_true.mp ha
  obtain ⟨d, hd⟩ := Option.isSome_iff_exists.mp hsome
  refine ⟨d, hd, List.mem_of_find?_eq_some hd, ?_⟩
  simpa using List.find?_some hd

/-! ### Concrete fixture used by witnesses and counterexamples -/

/-- A well-formed store id. -/
def oidA : ObjectId := ⟨"aaaaaaaaaaaaaaaaaaaaaaaa"⟩

/-- A stored announcement. -/
def docA : AnnDoc := ⟨oidA, "hello", none, "2099-01-01", "t1", "2024-01-01T00:00:00"⟩

/-- A store with one teacher `t1` and the single announcement `docA`. -/
def dbA : DB := ⟨["t1"], [docA]⟩

end Announcements

namespace Announcements

/-! ### Claim theorems -/

/-- C1: the spec claims that an update aimed at a well-formed identifier
matching no stored document fails with `NotFound` (404), distinguished from
the 400 reserved for identifiers that fail to parse.  In the code the
`HTTPException(404)` raised inside the `try:` block is caught by
`except Exception` and replaced by a 400, so the well-formed-but-unmatched
id surfaces with the same 400 status as the malformed id. -/
theorem C1_update_unmatched_id_yields_400 :
    ObjectId.parse "bbbbbbbbbbbbbbbbbbbbbbbb" ≠ none ∧
    (update_announcement ⟨["t1"], []⟩ "bbbbbbbbbbbbbbbbbbbbbbbb"
        ⟨some "X", none, none⟩ "t1").1 =
      Except.error ⟨400, "Invalid announcement ID: 404: Announcement not found"⟩ ∧
    (update_announcement ⟨["t1"], []⟩ "not-a-valid-id"
        ⟨some "X", none, none⟩ "t1").1 =
      Except.error ⟨400, "Invalid announcement ID: 'not-a-valid-id' is not a valid ObjectId, it must be a 12-byte input or a 24-character hex string"⟩ := by
  decide

/-- C2: deleting the same id twice: the first delete succeeds with the
confirmation message and removes the document from the store, but the second
delete returns 400 (the `HTTPException(404)` raised inside the `try:` block
is caught by `except Exception`), not the 404 the spec claims. -/
theorem C2_second_delete_yields_400 :
    delete_announcement dbA "aaaaaaaaaaaaaaaaaaaaaaaa" "t1" =
      (Except.ok "Announcement deleted successfully", ⟨["t1"], []⟩) ∧
    (delete_announcement (delete_announcement dbA "aaaaaaaaaaaaaaaaaaaaaaaa" "t1").2
        "aaaaaaaaaaaaaaaaaaaaaaaa" "t1").1 =
      Except.error ⟨400, "Invalid announcement ID: 404: Announcement not found"⟩ := by
  decide

/-- C7: for a known caller an all-`None` patch is rejected with
400 "No fields to update", before the identifier is parsed and before the
store is touched: the store comes back unchanged for every id string. -/
theorem C7_empty_patch_rejected (db : DB) (announcement_id u : String)
    (h : teacherExists db u = true) :
    update_announcement db announcement_id ⟨none, none, none⟩ u =
      (Except.error ⟨400, "No fields to update"⟩, db) := by
  unfold update_announcement
  rw [h]
  simp

/-- C7 witness: concrete known caller, empty patch, malformed id. -/
theorem C7_empty_patch_rejected_witness :
    update_announcement dbA "zzz" ⟨none, none, none⟩ "t1" =
      (Except.error ⟨400, "No fields to update"⟩, dbA) :=
  C7_empty_patch_rejected dbA "zzz" "t1" (by decide)

/-- C8: an unknown caller is rejected with 401 before any other precondition
check — for every patch (including the empty one) and every id string
(including malformed ones) — and the store is returned unchanged; since this
holds for every `db.announcements`, the outcome does not depend on the
announcement store at all. -/
theorem C8_auth_precedes_all (db : DB) (announcement_id u : String)
    (patch : AnnouncementUpdate) (h : teacherExists db u = false) :
    update_announcement db announcement_id patch u =
      (Except.error ⟨401, "Unauthorized"⟩, db) ∧
    delete_announcement db announcement_id u =
      (Except.error ⟨401, "Unauthorized"⟩, db) := by
  unfold update_announcement delete_announcement
  rw [h]
  simp

/-- C8 witness: unknown caller, malformed id, empty patch. -/
theorem C8_auth_precedes_all_witness :
    update_announcement dbA "not-an-id" ⟨none, none, none⟩ "eve" =
      (Except.error ⟨401, "Unauthorized"⟩, dbA) ∧
    delete_announcement dbA "not-an-id" "eve" =
      (Except.error ⟨401, "Unauthorized"⟩, dbA) :=
  C8_auth_precedes_all dbA "not-an-id" "eve" ⟨none, none, none⟩ (by decide)

end Announcements

namespace Announcements

/-- C3: for every store state and current date, `list_active` returns exactly
the announcements whose `expiration_date` is lexically >= the current date
and whose `start_date` is either absent or lexically <= the current date
(identifiers rendered as strings); in particular documents with
`expiration_date` < today or `start_date` > today are excluded. -/
theorem C3_active_exactly (db : DB) (current_date : String) :
    (get_active_announcements db current_date).1 =
      (db.announcements.filter (fun a =>
        strLe current_date a.expiration_date &&
        (match a.start_date with
         | none => true
         | some s => strLe s current_date))).map render := by
  unfold get_active_announcements
  dsimp only
  rw [List.filter_filter]
  congr 1
  apply List.filter_congr
  intro a _
  cases h : a.start_date with
  | none => simp
  | some s =>
    by_cases hs : s = ""
    · subst hs
      simp [strLe, pyLe]
    · simp [hs, Bool.and_comm]

/-- C4: `list_all` fails with 401 exactly when the username is unknown; for a
known username it returns every stored announcement, sorted by `created_at`
descending (newest first), identifiers rendered as strings; the store is
untouched either way. -/
theorem C4_list_all (db : DB) (u : String) :
    ((get_all_announcements db u).1 = Except.error ⟨401, "Unauthorized"⟩ ↔
      teacherExists db u = false) ∧
    (get_all_announcements db u).2 = db ∧
    (teacherExists db u = true →
      ∃ l : List AnnDoc,
        (get_all_announcements db u).1 = Except.ok (l.map render) ∧
        l.Perm db.announcements ∧ l.Sorted createdDesc) := by
  unfold get_all_announcements
  by_cases h : teacherExists db u = false
  · rw [if_pos h]
    refine ⟨⟨fun _ => h, fun _ => rfl⟩, rfl, ?_⟩
    intro htrue
    rw [htrue] at h
    cases h
  · rw [if_neg h]
    refine ⟨⟨fun he => ?_, fun hf => absurd hf h⟩, rfl, ?_⟩
    · simp at he
    · intro _
      exact ⟨List.insertionSort createdDesc db.announcements, rfl,
        List.perm_insertionSort createdDesc db.announcements,
        List.sorted_insertionSort createdDesc db.announcements⟩

/-- C4 witness at a concrete store and known caller. -/
theorem C4_list_all_witness :
    ∃ l : List AnnDoc,
      (get_all_announcements dbA "t1").1 = Except.ok (l.map render) ∧
      l.Perm dbA.announcements ∧ l.Sorted createdDesc :=
  (C4_list_all dbA "t1").2.2 (by decide)

/-- C5: `create` with an unknown `created_by` fails with 401 and leaves the
store unchanged (no document is persisted); with a known `created_by` the
document — stamped `created_at := now`, generated id rendered as a string —
is appended to the store and returned in full. -/
theorem C5_create_auth (db : DB) (ann : AnnouncementCreate) (now : String)
    (newId : ObjectId) :
    (teacherExists db ann.created_by = false →
      create_announcement db ann now newId =
        (Except.error ⟨401, "Unauthorized"⟩, db)) ∧
    (teacherExists db ann.created_by = true →
      create_announcement db ann now newId =
        (Except.ok ⟨newId.hex, ann.message, ann.start_date, ann.expiration_date,
            ann.created_by, now⟩,
          ⟨db.teachers, db.announcements ++
            [⟨newId, ann.message, ann.start_date, ann.expiration_date,
              ann.created_by, now⟩]⟩)) := by
  constructor
  · intro h
    unfold create_announcement
    rw [if_pos h]
  · intro h
    unfold create_announcement
    rw [if_neg (by rw [h]; simp)]
    rfl

/-- C5 witness: one rejected and one accepted create at a concrete store. -/
theorem C5_create_auth_witness :
    create_announcement dbA ⟨"m", none, "2099-01-01", "eve"⟩ "T0" ⟨"cc"⟩ =
      (Except.error ⟨401, "Unauthorized"⟩, dbA) ∧
    create_announcement dbA ⟨"m", none, "2099-01-01", "t1"⟩ "T0" ⟨"cc"⟩ =
      (Except.ok ⟨"cc", "m", none, "2099-01-01", "t1", "T0"⟩,
        ⟨["t1"], [docA, ⟨⟨"cc"⟩, "m", none, "2099-01-01", "t1", "T0"⟩]⟩) :=
  ⟨(C5_create_auth dbA ⟨"m", none, "2099-01-01", "eve"⟩ "T0" ⟨"cc"⟩).1 (by decide),
   (C5_create_auth dbA ⟨"m", none, "2099-01-01", "t1"⟩ "T0" ⟨"cc"⟩).2 (by decide)⟩

end Announcements

namespace Announcements

/-- C6: a successful `update` with a message-only patch changes only the
`message` of the first matched document: every other field of that document,
every other document, and the teacher collection are unchanged, and the
returned document is the matched document with the new message. -/
theorem C6_update_message_frame (db : DB) (announcement_id u X : String)
    (out : AnnJson)
    (hok : (update_announcement db announcement_id ⟨some X, none, none⟩ u).1 =
      Except.ok out) :
    (update_announcement db announcement_id ⟨some X, none, none⟩ u).2.teachers =
      db.teachers ∧
    ∃ oid : ObjectId, ObjectId.parse announcement_id = some oid ∧
      List.Forall₂ (fun d d' : AnnDoc =>
          d'.oid = d.oid ∧ d'.start_date = d.start_date ∧
          d'.expiration_date = d.expiration_date ∧
          d'.created_by = d.created_by ∧ d'.created_at = d.created_at ∧
          (d.oid ≠ oid → d' = d) ∧ (d'.message = d.message ∨ d'.message = X))
        db.announcements
        (update_announcement db announcement_id ⟨some X, none, none⟩ u).2.announcements ∧
      ∃ d0, db.announcements.find? (fun d => d.oid == oid) = some d0 ∧
        out = render { d0 with message := X } := by
  set R := update_announcement db announcement_id ⟨some X, none, none⟩ u with hR
  unfold update_announcement at hR
  split at hR
  next => rw [hR] at hok; simp at hok
  next =>
  split at hR
  next => rw [hR] at hok; simp at hok
  next =>
  split at hR
  next => rw [hR] at hok; simp at hok
  next oid heq =>
  split at hR
  next => rw [hR] at hok; simp at hok
  next hm =>
  split at hR
  next d hf =>
    rw [hR] at hok
    simp only [Except.ok.injEq] at hok
    refine ⟨?_, oid, heq, ?_, ?_⟩
    · rw [hR]
    · rw [hR]
      exact (updateFirst_frame oid ⟨some X, none, none⟩ db.announcements).imp
        (by rintro a b ⟨hne, h1 | h1⟩ <;> subst h1
            · exact ⟨rfl, rfl, rfl, rfl, rfl, hne, Or.inl rfl⟩
            · exact ⟨rfl, rfl, rfl, rfl, rfl, hne, Or.inr rfl⟩)
    · obtain ⟨d0, hfind, _, _⟩ := find_of_matched oid db.announcements hm
      refine ⟨d0, hfind, ?_⟩
      have hcomm := find_updateFirst oid ⟨some X, none, none⟩ db.announcements
      rw [hfind, hf, Option.map_some'] at hcomm
      cases hcomm
      rw [← hok]
      rfl
  next hf => rw [hR] at hok; simp at hok

/-- C6 witness: a successful concrete message-only update. -/
theorem C6_update_message_frame_witness :
    (update_announcement dbA "aaaaaaaaaaaaaaaaaaaaaaaa" ⟨some "X", none, none⟩
        "t1").2.teachers = dbA.teachers ∧
    ∃ oid : ObjectId, ObjectId.parse "aaaaaaaaaaaaaaaaaaaaaaaa" = some oid ∧
      List.Forall₂ (fun d d' : AnnDoc =>
          d'.oid = d.oid ∧ d'.start_date = d.start_date ∧
          d'.expiration_date = d.expiration_date ∧
          d'.created_by = d.created_by ∧ d'.created_at = d.created_at ∧
          (d.oid ≠ oid → d' = d) ∧ (d'.message = d.message ∨ d'.message = "X"))
        dbA.announcements
        (update_announcement dbA "aaaaaaaaaaaaaaaaaaaaaaaa" ⟨some "X", none, none⟩
          "t1").2.announcements ∧
      ∃ d0, dbA.announcements.find? (fun d => d.oid == oid) = some d0 ∧
        (⟨"aaaaaaaaaaaaaaaaaaaaaaaa", "X", none, "2099-01-01", "t1",
          "2024-01-01T00:00:00"⟩ : AnnJson) = render { d0 with message := "X" } :=
  C6_update_message_frame dbA "aaaaaaaaaaaaaaaaaaaaaaaa" "t1" "X"
    ⟨"aaaaaaaaaaaaaaaaaaaaaaaa", "X", none, "2099-01-01", "t1", "2024-01-01T00:00:00"⟩
    (by decide)

/-- C9: a stored announcement whose `start_date` is `None` or the empty
string is treated exactly like one with no start date ("always started"):
whenever its `expiration_date` is lexically >= the current date it appears
in `list_active`, because the filter tests truthiness of `start_date`. -/
theorem C9_falsy_start_included (db : DB) (current_date : String) (d : AnnDoc)
    (hmem : d ∈ db.announcements)
    (hstart : d.start_date = none ∨ d.start_date = some "")
    (hexp : strLe current_date d.expiration_date = true) :
    render d ∈ (get_active_announcements db current_date).1 := by
  unfold get_active_announcements
  dsimp only
  refine List.mem_map.mpr ⟨d, ?_, rfl⟩
  refine List.mem_filter.mpr ⟨List.mem_filter.mpr ⟨hmem, hexp⟩, ?_⟩
  rcases hstart with h | h <;> simp [h]

/-- C9 witness: an announcement with `start_date = ""` is listed as active. -/
theorem C9_falsy_start_included_witness :
    render ⟨⟨"eeeeeeeeeeeeeeeeeeeeeeee"⟩, "empty-start", some "", "2099-01-01",
        "t1", "2024-01-02T00:00:00"⟩ ∈
      (get_active_announcements
        ⟨["t1"], [⟨⟨"eeeeeeeeeeeeeeeeeeeeeeee"⟩, "empty-start", some "",
          "2099-01-01", "t1", "2024-01-02T00:00:00"⟩]⟩ "2025-06-01").1 :=
  C9_falsy_start_included
    ⟨["t1"], [⟨⟨"eeeeeeeeeeeeeeeeeeeeeeee"⟩, "empty-start", some "",
      "2099-01-01", "t1", "2024-01-02T00:00:00"⟩]⟩ "2025-06-01"
    ⟨⟨"eeeeeeeeeeeeeeeeeeeeeeee"⟩, "empty-start", some "", "2099-01-01", "t1",
      "2024-01-02T00:00:00"⟩
    (by decide) (by decide) (by decide)

/-- C10: no handler modifies the Teacher Directory: whatever the request and
whether it succeeds or fails, the teacher collection of the resulting state
is the original one, for all five handlers. -/
theorem C10_teacher_directory_frame (db : DB)
    (current_date now announcement_id u : String) (ann : AnnouncementCreate)
    (patch : AnnouncementUpdate) (newId : ObjectId) :
    (get_active_announcements db current_date).2.teachers = db.teachers ∧
    (get_all_announcements db u).2.teachers = db.teachers ∧
    (create_announcement db ann now newId).2.teachers = db.teachers ∧
    (update_announcement db announcement_id patch u).2.teachers = db.teachers ∧
    (delete_announcement db announcement_id u).2.teachers = db.teachers := by
  refine ⟨rfl, ?_, ?_, ?_, ?_⟩
  · unfold get_all_announcements
    split <;> rfl
  · unfold create_announcement
    split <;> rfl
  · unfold update_announcement
    repeat' split <;> try rfl
  · unfold delete_announcement
    repeat' split <;> try rfl

end Announcements
